import Mathlib

/-!
Verification of the CollaborativeEditor realtime gateway core:
the topic-subscription registry (nats.Manager in server.go / nats package),
the connection Hub and its broadcast loop (websocket package), and the
NATS forwarding callback (websocket/document.go).

The Go code is embedded shallowly: maps become association lists (a Go map
holds each key at most once, so deletion is modelled by filtering the key
out), channels become explicit queues with a capacity, and the external
NATS bus is modelled by the trace of Subscribe/Unsubscribe calls plus the
set of currently subscribed subjects.
-/

/-- `publisher.DocumentEventPayload`: the edit payload carried by a
document event (`action`, `position`, `data`). -/
structure DocumentEventPayload where
  Action : String
  Position : Int
  Data : String
deriving DecidableEq, Repr

/-- `publisher.DocumentEvent`: the envelope published on the bus
(`user_id`, `document_id`, `payload`, `timestamp`). -/
structure DocumentEvent where
  UserID : String
  DocumentID : String
  Payload : DocumentEventPayload
  Timestamp : Int
deriving DecidableEq, Repr

/-- A call made to the backend NATS bus: `conn.Subscribe` on the subject of a
topic or `subscription.Unsubscribe` for a topic. -/
inductive BusCall where
  | sub (topic : String)
  | unsub (topic : String)
deriving DecidableEq, Repr

/-- State of the `nats.Manager` registry (server.go): the `subscriptions`
map as an association list topic ↦ `connectionCount`, the set of topics for
which a backend bus subscription currently exists, and the trace of backend
calls issued so far. -/
structure RegState where
  reg : List (String × Int)
  bus : List String
  calls : List BusCall
deriving DecidableEq, Repr

/-- A freshly created manager: empty map, no bus subscriptions, no calls. -/
def RegState.init : RegState := ⟨[], [], []⟩

/-- `m.subscriptions[documentID]` map lookup. -/
def lookupCount : List (String × Int) → String → Option Int
  | [], _ => none
  | (k, v) :: rest, t => if k = t then some v else lookupCount rest t

/-- `m.subscriptions[documentID] = docSub` map write (overwrites the entry
for the key if present, otherwise appends it). -/
def setCount : List (String × Int) → String → Int → List (String × Int)
  | [], t, n => [(t, n)]
  | (k, v) :: rest, t, n => if k = t then (t, n) :: rest else (k, v) :: setCount rest t n

/-- `delete(m.subscriptions, documentID)`: the key occurs at most once in a
Go map, so deletion is filtering the key out. -/
def eraseCount (m : List (String × Int)) (t : String) : List (String × Int) :=
  m.filter (fun p => p.1 != t)

/-- The subject `fmt.Sprintf("document.%s.edit", documentID)` used by
`Manager.Subscribe` (server.go line 387). -/
def Manager.subscribeSubject (documentID : String) : String :=
  "document." ++ documentID ++ ".edit"

/-- The subject `fmt.Sprintf("document.%s.edit", event.DocumentID)` that
`Manager.PublishDocumentEvent` (server.go lines 362-377) publishes the
marshalled event on. -/
def Manager.publishSubject (event : DocumentEvent) : String :=
  "document." ++ event.DocumentID ++ ".edit"

/-- `Manager.Subscribe` (server.go lines 380-410). If no entry exists for
the topic, call the backend `conn.Subscribe`; on backend failure
(`busOk = false`) return the error without touching the map; on success
store the entry with `connectionCount: 0`. Finally increment the entry's
connection count. Returns the new state together with `some errorMessage`
when the call failed. -/
def Manager.Subscribe (busOk : Bool) (st : RegState) (t : String) : RegState × Option String :=
  match lookupCount st.reg t with
  | none =>
      if busOk then
        let created : RegState :=
          { reg := setCount st.reg t 0
            bus := t :: st.bus
            calls := st.calls ++ [BusCall.sub t] }
        ({ created with reg := setCount created.reg t (0 + 1) }, none)
      else
        (st, some ("failed to subscribe to " ++ Manager.subscribeSubject t))
  | some n => ({ st with reg := setCount st.reg t (n + 1) }, none)

/-- `Manager.Unsubscribe` (server.go lines 413-439). A missing entry is a
no-op returning nil; otherwise decrement the connection count, and when the
count reaches `≤ 0` issue the backend unsubscribe and delete the entry. -/
def Manager.Unsubscribe (st : RegState) (t : String) : RegState × Option String :=
  match lookupCount st.reg t with
  | none => (st, none)
  | some n =>
      let count : Int := n - 1
      let st1 : RegState := { st with reg := setCount st.reg t count }
      if count ≤ 0 then
        ({ reg := eraseCount st1.reg t
           bus := st1.bus.filter (fun x => x != t)
           calls := st1.calls ++ [BusCall.unsub t] }, none)
      else
        (st1, none)

/-- A Join (`Manager.Subscribe`) or Leave (`Manager.Unsubscribe`) call. -/
inductive RegOp where
  | join (t : String)
  | leave (t : String)
deriving DecidableEq, Repr

/-- The topic an operation is about. -/
def RegOp.topic : RegOp → String
  | .join t => t
  | .leave t => t

/-- One registry call on the success path of the backend bus. -/
def regStep (st : RegState) (op : RegOp) : RegState :=
  match op with
  | .join t => (Manager.Subscribe true st t).1
  | .leave t => (Manager.Unsubscribe st t).1

/-- A sequence of Join/Leave calls, performed left to right. -/
def regRun (st : RegState) (ops : List RegOp) : RegState :=
  ops.foldl regStep st

/-- Number of Joins on topic `t` in a call sequence. -/
def joinCount (t : String) (ops : List RegOp) : Nat :=
  ops.countP (fun op => op == RegOp.join t)

/-- Number of Leaves on topic `t` in a call sequence. -/
def leaveCount (t : String) (ops : List RegOp) : Nat :=
  ops.countP (fun op => op == RegOp.leave t)

/-- Net number of Joins minus Leaves on topic `t`. -/
def netCount (t : String) (ops : List RegOp) : Int :=
  (joinCount t ops : Int) - (leaveCount t ops : Int)

/-- Invariant tying a manager state to the net count `c` of effective
joins on topic `t`: the count is nonnegative, the map holds an entry with
`connectionCount = c` exactly when `c > 0`, and a backend bus subscription
for `t` exists exactly when `c > 0`. -/
def RegInv (t : String) (st : RegState) (c : Int) : Prop :=
  0 ≤ c ∧ lookupCount st.reg t = (if 0 < c then some c else none) ∧ (t ∈ st.bus ↔ 0 < c)

/-- The subject `fmt.Sprintf("document.%s.edit.%s", event.DocumentID,
event.Payload.Action)` that `NATSPublisher.PublishDocumentEvent`
(publisher/nats.go lines 23-36) publishes the marshalled event on. -/
def NATSPublisher.publishSubject (event : DocumentEvent) : String :=
  "document." ++ event.DocumentID ++ ".edit." ++ event.Payload.Action

/-- `websocket.MessageType`: text or binary, the integer discriminant of a
WebSocket frame. -/
inductive MessageType where
  | text
  | binary
deriving DecidableEq, Repr

/-- `websocket.DocumentMessage` (field `Type` is called `msgType` here
because `Type` is reserved in Lean). -/
structure DocumentMessage where
  msgType : MessageType
  DocumentID : String
  Data : String
deriving DecidableEq, Repr

/-- `websocket.Connection`: the client ID, the identity of its `send`
channel (`queueId` stands for the channel object, so that closing the same
channel twice is observable), the `MetaDocumentIDKey` metadata entry
(`none` when the key is absent or not a string), the messages currently
buffered in `send`, and the channel capacity (256 at creation). -/
structure Connection where
  clientID : String
  queueId : Nat
  docID : Option String
  pending : List DocumentMessage
  cap : Nat
deriving DecidableEq, Repr

/-- `websocket.Hub` state: the `connections` map client ID ↦ Connection as
an association list (each key at most once), plus the list of send channels
(by `queueId`) the hub has closed so far, in order. -/
structure Hub where
  connections : List Connection
  closed : List Nat
deriving DecidableEq, Repr

/-- `h.connections[conn.clientID] = conn`: map write, overwriting the entry
with the same client ID if present. -/
def mapInsert : List Connection → Connection → List Connection
  | [], c => [c]
  | d :: rest, c =>
      if d.clientID == c.clientID then c :: rest else d :: mapInsert rest c

/-- `h.connections[clientID]` map lookup. -/
def lookupConn : List Connection → String → Option Connection
  | [], _ => none
  | d :: rest, cid => if d.clientID == cid then some d else lookupConn rest cid

/-- The `register` case of `Hub.Run` (part_006 lines 67-70):
`h.connections[conn.clientID] = conn`. -/
def Hub.registerConn (h : Hub) (c : Connection) : Hub :=
  { h with connections := mapInsert h.connections c }

/-- The `unregister` case of `Hub.Run` (part_006 lines 72-78): if an entry
for `conn.clientID` is present, delete it and close `conn.send` — note the
code closes the channel of the connection passed to unregister, while
deleting whatever entry the map currently holds under that client ID. -/
def Hub.unregisterConn (h : Hub) (c : Connection) : Hub :=
  if h.connections.any (fun d => d.clientID == c.clientID) then
    { connections := h.connections.filter (fun d => d.clientID != c.clientID)
      closed := h.closed ++ [c.queueId] }
  else h

/-- Result of one pass of the `BroadcastToDocument` loop over the
connections map: the surviving entries, the channels closed during the
pass, and the client IDs whose queue the message was enqueued on. -/
structure BroadcastOutcome where
  connections : List Connection
  closed : List Nat
  delivered : List String
deriving DecidableEq, Repr

/-- The `for _, conn := range h.connections` loop of
`Hub.BroadcastToDocument` (part_006 lines 104-131): a connection whose
document metadata is a string equal to `documentID` is selected unless the
exclusion is active (`excludeID != ""`) and names it; a selected connection
with room in its `send` channel gets `DocumentMessage{Type: TextMessage,
Data: data}` enqueued (non-blocking send succeeds iff the buffered count is
below capacity), and a selected connection with a full channel is deleted
from the map and its channel closed. -/
def broadcastLoop (documentID data excludeID : String) :
    List Connection → BroadcastOutcome
  | [] => ⟨[], [], []⟩
  | c :: rest =>
      let r := broadcastLoop documentID data excludeID rest
      match c.docID with
      | some connDocID =>
          if connDocID = documentID then
            if excludeID ≠ "" ∧ c.clientID = excludeID then
              ⟨c :: r.connections, r.closed, r.delivered⟩
            else if c.pending.length < c.cap then
              ⟨{ c with pending := c.pending ++ [⟨MessageType.text, "", data⟩] } :: r.connections,
                r.closed, c.clientID :: r.delivered⟩
            else
              ⟨r.connections, c.queueId :: r.closed, r.delivered⟩
          else ⟨c :: r.connections, r.closed, r.delivered⟩
      | none => ⟨c :: r.connections, r.closed, r.delivered⟩

/-- `Hub.BroadcastToDocument` (part_006 lines 94-133): `excludeID` is the
first optional argument or `""`; run the loop over the map and return the
updated hub together with the list of client IDs the message was sent to.
The function is total: the broadcaster never blocks and receives no
error. -/
def Hub.BroadcastToDocument (h : Hub) (documentID data : String)
    (excludeClientID : List String) : Hub × List String :=
  let excludeID := excludeClientID.headD ""
  let r := broadcastLoop documentID data excludeID h.connections
  (⟨r.connections, h.closed ++ r.closed⟩, r.delivered)

/-- Data arriving from the bus, as seen through `json.Unmarshal` into a
`publisher.DocumentEvent`: either raw bytes that decode to an event, or raw
bytes on which decoding fails. The decoder itself is external library code;
only its success/failure outcome matters to the forwarding callback. -/
inductive BusData where
  | encoded (raw : String) (e : DocumentEvent)
  | malformed (raw : String)
deriving DecidableEq, Repr

/-- The raw bytes (`msg.Data`) of a bus message. -/
def BusData.raw : BusData → String
  | .encoded raw _ => raw
  | .malformed raw => raw

/-- `json.Unmarshal(msg.Data, &event)` outcome. -/
def decodeDocumentEvent : BusData → Option DocumentEvent
  | .encoded _ e => some e
  | .malformed _ => none

/-- `DocumentHandler.createNATSHandler` (websocket/document.go lines
101-119): on a bus delivery for `documentID`, try to decode the envelope;
on failure broadcast the raw bytes with no exclusion (fail-open fallback),
on success broadcast the raw bytes excluding the envelope's `UserID`. -/
def DocumentHandler.createNATSHandler (documentID : String) (h : Hub)
    (msg : BusData) : Hub × List String :=
  match decodeDocumentEvent msg with
  | none => h.BroadcastToDocument documentID msg.raw []
  | some event => h.BroadcastToDocument documentID msg.raw [event.UserID]

/-- Observable outcome of one `HandleWebSocket` request (part_006 lines
174-214): the hub state afterwards, the HTTP error status written (401 when
the middleware supplies no user ID), whether the upgrade succeeded, the
connection wrapper that was registered (if any), whether the read/write
pumps were started, and whether the handler closed the transport. -/
structure HandleResult where
  hub : Hub
  httpError : Option Nat
  upgraded : Bool
  registered : Option Connection
  pumpsStarted : Bool
  transportClosed : Bool
deriving DecidableEq, Repr

/-- `HandleWebSocket` (part_006 lines 174-214). Inputs: the middleware's
user ID (`none` when `GetUserID` reports not-ok), the `{id}` path value,
whether the upgrade succeeds, whether `handler.OnConnect` returns an error,
and the identity of the freshly made `send` channel. An empty or missing
user ID yields a 401 before upgrading; an upgrade failure just returns; on
success a Connection with capacity-256 queue and the document ID metadata
is registered with the hub, and only if `OnConnect` returns nil are the
read and write pumps started. -/
def HandleWebSocket (hub : Hub) (userID : Option String) (docId : String)
    (upgradeOk onConnectErr : Bool) (queueId : Nat) : HandleResult :=
  match userID with
  | none => ⟨hub, some 401, false, none, false, false⟩
  | some uid =>
      if uid = "" then ⟨hub, some 401, false, none, false, false⟩
      else if upgradeOk = false then ⟨hub, none, false, none, false, false⟩
      else
        let wsConn : Connection := ⟨uid, queueId, some docId, [], 256⟩
        let hub1 := hub.registerConn wsConn
        if onConnectErr then ⟨hub1, none, true, some wsConn, false, false⟩
        else ⟨hub1, none, true, some wsConn, true, false⟩

/-! ## Helper lemmas -/

/-- Looking up a key right after writing it finds the written value. -/
theorem lookupCount_setCount_self (m : List (String × Int)) (t : String) (n : Int) :
    lookupCount (setCount m t n) t = some n := by
  induction m with
  | nil => simp [setCount, lookupCount]
  | cons p rest ih =>
      by_cases hp : p.1 = t
      · simp [setCount, hp, lookupCount]
      · simp [setCount, hp, lookupCount, ih]

/-- Deleting a key removes every binding of it. -/
theorem lookupCount_eraseCount_self (m : List (String × Int)) (t : String) :
    lookupCount (eraseCount m t) t = none := by
  induction m with
  | nil => simp [eraseCount, lookupCount]
  | cons p rest ih =>
      by_cases hp : p.1 = t
      · simpa [eraseCount, hp] using ih
      · simpa [eraseCount, lookupCount, hp] using ih

/-- A topic filtered out of the bus-subscription set is not a member. -/
theorem not_mem_filter_bne (l : List String) (t : String) :
    t ∉ l.filter (fun x => x != t) := by
  intro hmem
  rcases List.mem_filter.mp hmem with ⟨-, hne⟩
  simp at hne

/-- Prepending a Join on `t` raises the net count on `t` by one. -/
theorem netCount_cons_join (t : String) (l : List RegOp) :
    netCount t (RegOp.join t :: l) = netCount t l + 1 := by
  simp [netCount, joinCount, leaveCount, List.countP_cons]
  ring

/-- Prepending a Leave on `t` lowers the net count on `t` by one. -/
theorem netCount_cons_leave (t : String) (l : List RegOp) :
    netCount t (RegOp.leave t :: l) = netCount t l - 1 := by
  simp [netCount, joinCount, leaveCount, List.countP_cons]
  ring

/-- Filtering a client ID out of the map leaves no entry under it. -/
theorem any_filter_bne (l : List Connection) (cid : String) :
    (l.filter (fun d => d.clientID != cid)).any (fun d => d.clientID == cid) = false := by
  rw [List.any_eq_false]
  intro x hx
  rcases List.mem_filter.mp hx with ⟨-, hne⟩
  simpa using hne

/-- After a map write, looking up the written client ID finds the written
connection. -/
theorem lookupConn_mapInsert (l : List Connection) (c : Connection) :
    lookupConn (mapInsert l c) c.clientID = some c := by
  induction l with
  | nil => simp [mapInsert, lookupConn]
  | cons d rest ih =>
      by_cases hd : d.clientID == c.clientID
      · simp [mapInsert, hd, lookupConn]
      · simp [mapInsert, hd, lookupConn, ih]

/-- After a map write, an entry under the written client ID is present. -/
theorem any_mapInsert_self (l : List Connection) (c : Connection) :
    (mapInsert l c).any (fun d => d.clientID == c.clientID) = true := by
  induction l with
  | nil => simp [mapInsert]
  | cons d rest ih =>
      by_cases hd : d.clientID == c.clientID
      · simp [mapInsert, hd]
      · simp [mapInsert, hd, ih]

/-! ## Claims -/

/-- C1 (counterexample): the claimed iff fails as stated. For the call
sequence Leave(d), Join(d) the leave on the nonexistent topic is a no-op,
so after the join a bus subscription for d exists while the net
Join-minus-Leave count is 0, not > 0. -/
theorem C1_counterexample :
    ¬ (("d" ∈ (regRun RegState.init [RegOp.leave "d", RegOp.join "d"]).bus)
        ↔ 0 < netCount "d" [RegOp.leave "d", RegOp.join "d"]) := by decide

/-- C2: starting from an empty registry, Join(t), Join(t), Leave(t),
Leave(t) issues exactly one backend Subscribe followed by exactly one
backend Unsubscribe, in that order, and leaves no registry entry and no bus
subscription for t. -/
theorem C2_last_leaver_teardown (t : String) :
    regRun RegState.init [RegOp.join t, RegOp.join t, RegOp.leave t, RegOp.leave t]
      = ⟨[], [], [BusCall.sub t, BusCall.unsub t]⟩ := by
  simp [regRun, regStep, RegState.init, Manager.Subscribe, Manager.Unsubscribe, lookupCount,
    setCount, eraseCount, List.foldl]

/-- C5 (counterexample): the claim fails as stated. For an event on
document "doc1" with action "insert", `NATSPublisher.PublishDocumentEvent`
publishes on "document.doc1.edit.insert" while `Manager.Subscribe`
subscribes to "document.doc1.edit"; the two subject strings differ. -/
theorem C5_counterexample :
    NATSPublisher.publishSubject ⟨"u1", "doc1", ⟨"insert", 5, "x"⟩, 0⟩
      ≠ Manager.subscribeSubject "doc1" := by decide

/-- C5 (amended): for every document event, the subject
`Manager.PublishDocumentEvent` publishes on equals the subject
`Manager.Subscribe` subscribes to for that event's document ID, and it
follows the `<namespace>.<topicID>.<event-kind>` convention with namespace
"document" and kind "edit". -/
theorem C5_subject_agreement (event : DocumentEvent) :
    Manager.publishSubject event = Manager.subscribeSubject event.DocumentID ∧
    Manager.publishSubject event
      = "document" ++ "." ++ event.DocumentID ++ "." ++ "edit" := by
  refine ⟨rfl, ?_⟩
  rw [show ("document" ++ "." : String) = "document." from rfl]
  rw [String.append_assoc, show ("." ++ "edit" : String) = ".edit" from rfl]
  rfl

/-- C6: if the backend subscribe call fails during a Join for a topic with
no existing registry entry, the Join returns an error and the whole manager
state — map, bus subscriptions and call trace — is unchanged: atomic
create-or-nothing. -/
theorem C6_failed_join_atomic (st : RegState) (t : String)
    (h : lookupCount st.reg t = none) :
    Manager.Subscribe false st t
      = (st, some ("failed to subscribe to " ++ Manager.subscribeSubject t)) := by
  simp [Manager.Subscribe, h]

/-- Witness for C6 at the empty registry and topic "doc1". -/
theorem C6_failed_join_atomic_witness :
    lookupCount RegState.init.reg "doc1" = none ∧
    Manager.Subscribe false RegState.init "doc1"
      = (RegState.init, some ("failed to subscribe to " ++ Manager.subscribeSubject "doc1")) :=
  ⟨rfl, C6_failed_join_atomic RegState.init "doc1" rfl⟩

/-- C7: unregistering the same connection twice has the same observable
effect on the hub — both the connection map and the closed-channel record —
as unregistering it once; the second call is a no-op and no channel is
closed twice. -/
theorem C7_idempotent_unregister (h : Hub) (c : Connection) :
    Hub.unregisterConn (Hub.unregisterConn h c) c = Hub.unregisterConn h c := by
  by_cases hp : h.connections.any (fun d => d.clientID == c.clientID) = true
  · simp [Hub.unregisterConn, hp, any_filter_bne]
  · simp [Hub.unregisterConn, hp]

/-- C9 (counterexample): the claim fails as stated. Register connection
c2 (queue 2) over connection c1 (queue 1, same client ID "a"), then
unregister c1: the hub closes queue 1 — the queue of the connection object
passed to unregister — and not queue 2, the queue of the connection that
was currently mapped, contradicting "removes and closes only the
currently-mapped connection". -/
theorem C9_counterexample :
    (Hub.unregisterConn
        (Hub.registerConn ⟨[⟨"a", 1, none, [], 256⟩], []⟩ ⟨"a", 2, none, [], 256⟩)
        ⟨"a", 1, none, [], 256⟩).closed = [1] ∧
    (Hub.unregisterConn
        (Hub.registerConn ⟨[⟨"a", 1, none, [], 256⟩], []⟩ ⟨"a", 2, none, [], 256⟩)
        ⟨"a", 1, none, [], 256⟩).closed ≠ [2] := by decide

/-- C9 (amended): registering a connection whose client ID is already
present silently replaces the map entry and closes nothing; a subsequent
unregister carrying that client ID deletes whatever entry is currently
mapped under the ID, but closes the send queue of the connection object
passed to unregister (which may be the displaced one, not the one that was
mapped). -/
theorem C9_register_replaces (h : Hub) (c1 c2 : Connection)
    (hid : c2.clientID = c1.clientID) :
    (h.registerConn c2).closed = h.closed ∧
    lookupConn (h.registerConn c2).connections c1.clientID = some c2 ∧
    ((h.registerConn c2).unregisterConn c1).connections
      = (mapInsert h.connections c2).filter (fun d => d.clientID != c1.clientID) ∧
    ((h.registerConn c2).unregisterConn c1).closed = h.closed ++ [c1.queueId] := by
  have hany : (mapInsert h.connections c2).any (fun d => d.clientID == c1.clientID) = true := by
    rw [← hid]
    exact any_mapInsert_self h.connections c2
  refine ⟨rfl, ?_, ?_, ?_⟩
  · rw [← hid]
    exact lookupConn_mapInsert h.connections c2
  · simp [Hub.unregisterConn, Hub.registerConn, hany]
  · simp [Hub.unregisterConn, Hub.registerConn, hany]

/-- Witness for C9 at the two-connection scenario on client ID "a". -/
theorem C9_register_replaces_witness :
    (Connection.mk "a" 2 none [] 256).clientID = (Connection.mk "a" 1 none [] 256).clientID ∧
    (((Hub.mk [Connection.mk "a" 1 none [] 256] []).registerConn
        (Connection.mk "a" 2 none [] 256)).closed
        = (Hub.mk [Connection.mk "a" 1 none [] 256] []).closed ∧
      lookupConn ((Hub.mk [Connection.mk "a" 1 none [] 256] []).registerConn
          (Connection.mk "a" 2 none [] 256)).connections
          (Connection.mk "a" 1 none [] 256).clientID = some (Connection.mk "a" 2 none [] 256) ∧
      (((Hub.mk [Connection.mk "a" 1 none [] 256] []).registerConn
          (Connection.mk "a" 2 none [] 256)).unregisterConn
          (Connection.mk "a" 1 none [] 256)).connections
        = (mapInsert (Hub.mk [Connection.mk "a" 1 none [] 256] []).connections
            (Connection.mk "a" 2 none [] 256)).filter
            (fun d => d.clientID != (Connection.mk "a" 1 none [] 256).clientID) ∧
      (((Hub.mk [Connection.mk "a" 1 none [] 256] []).registerConn
          (Connection.mk "a" 2 none [] 256)).unregisterConn
          (Connection.mk "a" 1 none [] 256)).closed
        = (Hub.mk [Connection.mk "a" 1 none [] 256] []).closed
            ++ [(Connection.mk "a" 1 none [] 256).queueId]) :=
  ⟨rfl, C9_register_replaces (Hub.mk [Connection.mk "a" 1 none [] 256] [])
      (Connection.mk "a" 1 none [] 256) (Connection.mk "a" 2 none [] 256) rfl⟩

/-- C10: when `handler.OnConnect` returns an error in `HandleWebSocket`,
the connection has already been registered and stays registered under its
user ID, the read/write pumps are not started, the transport is not closed,
and no send queue is closed by the handler. -/
theorem C10_onconnect_error_leaves_registered (hub : Hub) (uid docId : String)
    (qid : Nat) (hne : uid ≠ "") :
    (HandleWebSocket hub (some uid) docId true true qid).registered
        = some ⟨uid, qid, some docId, [], 256⟩ ∧
    lookupConn (HandleWebSocket hub (some uid) docId true true qid).hub.connections uid
        = some ⟨uid, qid, some docId, [], 256⟩ ∧
    (HandleWebSocket hub (some uid) docId true true qid).pumpsStarted = false ∧
    (HandleWebSocket hub (some uid) docId true true qid).transportClosed = false ∧
    (HandleWebSocket hub (some uid) docId true true qid).hub.closed = hub.closed := by
  have hlook := lookupConn_mapInsert hub.connections (⟨uid, qid, some docId, [], 256⟩ : Connection)
  simp [HandleWebSocket, hne, Hub.registerConn]
  exact hlook

/-- Witness for C10 at user "u1" joining document "doc1" on an empty hub. -/
theorem C10_onconnect_error_leaves_registered_witness :
    ("u1" : String) ≠ "" ∧
    ((HandleWebSocket (Hub.mk [] []) (some "u1") "doc1" true true 5).registered
        = some ⟨"u1", 5, some "doc1", [], 256⟩ ∧
      lookupConn (HandleWebSocket (Hub.mk [] []) (some "u1") "doc1" true true 5).hub.connections "u1"
        = some ⟨"u1", 5, some "doc1", [], 256⟩ ∧
      (HandleWebSocket (Hub.mk [] []) (some "u1") "doc1" true true 5).pumpsStarted = false ∧
      (HandleWebSocket (Hub.mk [] []) (some "u1") "doc1" true true 5).transportClosed = false ∧
      (HandleWebSocket (Hub.mk [] []) (some "u1") "doc1" true true 5).hub.closed
        = (Hub.mk [] []).closed) :=
  ⟨by decide, C10_onconnect_error_leaves_registered (Hub.mk [] []) "u1" "doc1" 5 (by decide)⟩

/-- A Join on `t` preserves the registry invariant, raising the count. -/
theorem regInv_join (t : String) (st : RegState) (c : Int) (h : RegInv t st c) :
    RegInv t (regStep st (RegOp.join t)) (c + 1) := by
  obtain ⟨hc, hlook, hbus⟩ := h
  have h1 : (0:Int) < c + 1 := by omega
  by_cases hpos : 0 < c
  · rw [if_pos hpos] at hlook
    refine ⟨by omega, ?_, ?_⟩
    · simp [regStep, Manager.Subscribe, hlook, lookupCount_setCount_self, h1]
    · simp [regStep, Manager.Subscribe, hlook, h1]
      exact hbus.mpr hpos
  · have hc0 : c = 0 := by omega
    subst hc0
    rw [if_neg hpos] at hlook
    refine ⟨by omega, ?_, ?_⟩
    · simp [regStep, Manager.Subscribe, hlook, lookupCount_setCount_self, h1]
    · simp [regStep, Manager.Subscribe, hlook, h1]

/-- A Leave on `t` with a positive count preserves the registry invariant,
lowering the count; at count one it tears the subscription down. -/
theorem regInv_leave (t : String) (st : RegState) (c : Int) (h : RegInv t st c)
    (hpos : 0 < c) : RegInv t (regStep st (RegOp.leave t)) (c - 1) := by
  obtain ⟨hc, hlook, hbus⟩ := h
  rw [if_pos hpos] at hlook
  by_cases h1 : c = 1
  · subst h1
    refine ⟨by omega, ?_, ?_⟩
    · simp [regStep, Manager.Unsubscribe, hlook, lookupCount_eraseCount_self,
        show ((1:Int) - 1 ≤ 0) by norm_num, show ¬ ((0:Int) < 1 - 1) by norm_num]
    · simp [regStep, Manager.Unsubscribe, hlook,
        show ((1:Int) - 1 ≤ 0) by norm_num, show ¬ ((0:Int) < 1 - 1) by norm_num]
  · have h2 : ¬ (c - 1 ≤ 0) := by omega
    have h3 : (0:Int) < c - 1 := by omega
    refine ⟨by omega, ?_, ?_⟩
    · simp [regStep, Manager.Unsubscribe, hlook, lookupCount_setCount_self, h2, h3]
    · simp [regStep, Manager.Unsubscribe, hlook, h2, h3]
      exact hbus.mpr hpos

/-- Running a single-topic call sequence whose leaves never outrun its
joins preserves the registry invariant, shifting the count by the net. -/
theorem regRun_inv (t : String) : ∀ (ops : List RegOp) (st : RegState) (c : Int),
    RegInv t st c → (∀ op ∈ ops, RegOp.topic op = t) →
    (∀ n : Nat, 0 ≤ c + netCount t (List.take n ops)) →
    RegInv t (regRun st ops) (c + netCount t ops) := by
  intro ops
  induction ops with
  | nil =>
      intro st c hinv _ _
      simpa [regRun, netCount, joinCount, leaveCount] using hinv
  | cons op rest ih =>
      intro st c hinv hall hpre
      have htop := hall op (List.mem_cons_self _ _)
      have hall' : ∀ o ∈ rest, RegOp.topic o = t := fun o ho => hall o (List.mem_cons_of_mem _ ho)
      cases op with
      | join s =>
          have hs : t = s := htop.symm
          subst hs
          have hinv' := regInv_join t st c hinv
          have hpre' : ∀ n : Nat, 0 ≤ (c + 1) + netCount t (List.take n rest) := by
            intro n
            have hp := hpre (n + 1)
            rw [List.take_succ_cons, netCount_cons_join] at hp
            omega
          have hres := ih (regStep st (RegOp.join t)) (c + 1) hinv' hall' hpre'
          have heq : (c + 1) + netCount t rest = c + netCount t (RegOp.join t :: rest) := by
            rw [netCount_cons_join]; ring
          rw [← heq]
          exact hres
      | leave s =>
          have hs : t = s := htop.symm
          subst hs
          have hpos : (0:Int) < c := by
            have hp := hpre 1
            rw [show List.take 1 (RegOp.leave t :: rest) = [RegOp.leave t] by simp,
              netCount_cons_leave] at hp
            have hz : netCount t ([] : List RegOp) = 0 := by
              simp [netCount, joinCount, leaveCount]
            omega
          have hinv' := regInv_leave t st c hinv hpos
          have hpre' : ∀ n : Nat, 0 ≤ (c - 1) + netCount t (List.take n rest) := by
            intro n
            have hp := hpre (n + 1)
            rw [List.take_succ_cons, netCount_cons_leave] at hp
            omega
          have hres := ih (regStep st (RegOp.leave t)) (c - 1) hinv' hall' hpre'
          have heq : (c - 1) + netCount t rest = c + netCount t (RegOp.leave t :: rest) := by
            rw [netCount_cons_leave]; ring
          rw [← heq]
          exact hres

/-- C1 (amended): for every finite single-topic sequence of Join
(`Manager.Subscribe`) and Leave (`Manager.Unsubscribe`) calls in which, in
every prefix, the number of Leaves never exceeds the number of Joins, at
every point of the sequence a backend bus subscription for the topic exists
iff the net Join-minus-Leave count so far is > 0. (The prefix condition is
forced by the counterexample: a Leave on a nonexistent topic is a no-op
that still lowers the net count.) -/
theorem C1_refcount_invariant (t : String) (ops : List RegOp)
    (hall : ∀ op ∈ ops, RegOp.topic op = t)
    (hpre : ∀ n : Nat, 0 ≤ netCount t (List.take n ops)) (n : Nat) :
    ((t ∈ (regRun RegState.init (List.take n ops)).bus)
      ↔ 0 < netCount t (List.take n ops)) := by
  have hinv : RegInv t RegState.init 0 := by
    refine ⟨le_refl 0, ?_, ?_⟩ <;> simp [RegState.init, lookupCount]
  have hall' : ∀ op ∈ List.take n ops, RegOp.topic op = t :=
    fun op ho => hall op (List.take_subset n ops ho)
  have hpre' : ∀ k : Nat, 0 ≤ 0 + netCount t (List.take k (List.take n ops)) := by
    intro k
    rw [List.take_take]
    simpa using hpre (min k n)
  have h := regRun_inv t (List.take n ops) RegState.init 0 hinv hall' hpre'
  simpa using h.2.2

/-- Witness for C1 (amended) at the sequence Join("a") observed after its
first call. -/
theorem C1_refcount_invariant_witness :
    (∀ op ∈ [RegOp.join "a"], RegOp.topic op = "a") ∧
    (∀ n : Nat, 0 ≤ netCount "a" (List.take n [RegOp.join "a"])) ∧
    (("a" ∈ (regRun RegState.init (List.take 1 [RegOp.join "a"])).bus)
      ↔ 0 < netCount "a" (List.take 1 [RegOp.join "a"])) := by
  have h1 : ∀ op ∈ [RegOp.join "a"], RegOp.topic op = "a" := by decide
  have h2 : ∀ n : Nat, 0 ≤ netCount "a" (List.take n [RegOp.join "a"]) := by
    intro n
    cases n with
    | zero => decide
    | succ m => simp [List.take_succ_cons, netCount, joinCount, leaveCount]
  exact ⟨h1, h2, C1_refcount_invariant "a" [RegOp.join "a"] h1 h2 1⟩

/-- When the exclusion is active and every selected queue has room, one
broadcast pass enqueues the message on exactly the connections on the
document other than the excluded client, closing nothing. -/
theorem broadcastLoop_excl (documentID data excludeID : String) (hex : excludeID ≠ "") :
    ∀ conns : List Connection, (∀ c ∈ conns, c.pending.length < c.cap) →
    broadcastLoop documentID data excludeID conns =
      ⟨conns.map (fun c =>
          if c.docID = some documentID ∧ c.clientID ≠ excludeID then
            { c with pending := c.pending ++ [⟨MessageType.text, "", data⟩] } else c),
        [],
        (conns.filter (fun c =>
            decide (c.docID = some documentID ∧ c.clientID ≠ excludeID))).map
          (fun c => c.clientID)⟩ := by
  intro conns
  induction conns with
  | nil => intro _; simp [broadcastLoop]
  | cons c rest ih =>
      intro hroom
      have hr := ih (fun d hd => hroom d (List.mem_cons_of_mem _ hd))
      have hcr := hroom c (List.mem_cons_self _ _)
      match hdoc : c.docID with
      | none => simp [broadcastLoop, hr, hdoc]
      | some d =>
          by_cases hd : d = documentID
          · subst hd
            by_cases hcid : c.clientID = excludeID
            · simp [broadcastLoop, hr, hdoc, hcid, hex]
            · simp [broadcastLoop, hr, hdoc, hcid, hex, hcr]
          · simp [broadcastLoop, hr, hdoc, hd]

/-- With no exclusion (empty exclude ID) and room everywhere, one broadcast
pass enqueues the message on every connection on the document. -/
theorem broadcastLoop_noexcl (documentID data : String) :
    ∀ conns : List Connection, (∀ c ∈ conns, c.pending.length < c.cap) →
    broadcastLoop documentID data "" conns =
      ⟨conns.map (fun c =>
          if c.docID = some documentID then
            { c with pending := c.pending ++ [⟨MessageType.text, "", data⟩] } else c),
        [],
        (conns.filter (fun c => decide (c.docID = some documentID))).map
          (fun c => c.clientID)⟩ := by
  intro conns
  induction conns with
  | nil => intro _; simp [broadcastLoop]
  | cons c rest ih =>
      intro hroom
      have hr := ih (fun d hd => hroom d (List.mem_cons_of_mem _ hd))
      have hcr := hroom c (List.mem_cons_self _ _)
      match hdoc : c.docID with
      | none => simp [broadcastLoop, hr, hdoc]
      | some d =>
          by_cases hd : d = documentID
          · subst hd
            simp [broadcastLoop, hr, hdoc, hcr]
          · simp [broadcastLoop, hr, hdoc, hd]

/-- Every connection surviving a broadcast pass carries a client ID that
was already in the map. -/
theorem broadcastLoop_conn_ids (documentID data excludeID : String) :
    ∀ conns : List Connection,
      ∀ d ∈ (broadcastLoop documentID data excludeID conns).connections,
        d.clientID ∈ conns.map (fun c => c.clientID) := by
  intro conns
  induction conns with
  | nil => intro d hd; simp [broadcastLoop] at hd
  | cons c rest ih =>
      intro d hd
      match hdoc : c.docID with
      | none =>
          simp only [broadcastLoop, hdoc] at hd
          rcases List.mem_cons.mp hd with rfl | hd2
          · simp
          · simp [ih d hd2]
      | some s =>
          by_cases hs : s = documentID
          · by_cases hexc : excludeID ≠ "" ∧ c.clientID = excludeID
            · simp only [broadcastLoop, hdoc, hs, if_pos hexc, if_pos rfl] at hd
              rcases List.mem_cons.mp hd with rfl | hd2
              · simp
              · simp [ih d hd2]
            · by_cases hfull : c.pending.length < c.cap
              · simp only [broadcastLoop, hdoc, hs, if_neg hexc, if_pos hfull, if_pos rfl] at hd
                rcases List.mem_cons.mp hd with rfl | hd2
                · simp
                · simp [ih d hd2]
              · simp only [broadcastLoop, hdoc, hs, if_neg hexc, if_neg hfull, if_pos rfl] at hd
                simp [ih d hd]
          · simp only [broadcastLoop, hdoc, if_neg hs] at hd
            rcases List.mem_cons.mp hd with rfl | hd2
            · simp
            · simp [ih d hd2]

/-- Every client ID a broadcast pass delivers to was in the map. -/
theorem broadcastLoop_delivered_ids (documentID data excludeID : String) :
    ∀ conns : List Connection,
      ∀ x ∈ (broadcastLoop documentID data excludeID conns).delivered,
        x ∈ conns.map (fun c => c.clientID) := by
  intro conns
  induction conns with
  | nil => intro x hx; simp [broadcastLoop] at hx
  | cons c rest ih =>
      intro x hx
      match hdoc : c.docID with
      | none =>
          simp only [broadcastLoop, hdoc] at hx
          simp [ih x hx]
      | some s =>
          by_cases hs : s = documentID
          · by_cases hexc : excludeID ≠ "" ∧ c.clientID = excludeID
            · simp only [broadcastLoop, hdoc, hs, if_pos hexc, if_pos rfl] at hx
              simp [ih x hx]
            · by_cases hfull : c.pending.length < c.cap
              · simp only [broadcastLoop, hdoc, hs, if_neg hexc, if_pos hfull, if_pos rfl] at hx
                rcases List.mem_cons.mp hx with rfl | hx2
                · simp
                · simp [ih x hx2]
              · simp only [broadcastLoop, hdoc, hs, if_neg hexc, if_neg hfull, if_pos rfl] at hx
                simp [ih x hx]
          · simp only [broadcastLoop, hdoc, if_neg hs] at hx
            simp [ih x hx]

/-- A selected connection with a full queue is evicted by the pass: its
channel is closed, no surviving map entry carries its client ID, and it is
not among the delivery targets. -/
theorem broadcastLoop_evicts (documentID data excludeID : String) (c : Connection)
    (hdoc : c.docID = some documentID)
    (hnex : ¬ (excludeID ≠ "" ∧ c.clientID = excludeID))
    (hfull : ¬ (c.pending.length < c.cap)) :
    ∀ conns : List Connection, (conns.map (fun d => d.clientID)).Nodup → c ∈ conns →
      (c.queueId ∈ (broadcastLoop documentID data excludeID conns).closed ∧
       (∀ d ∈ (broadcastLoop documentID data excludeID conns).connections,
          d.clientID ≠ c.clientID) ∧
       c.clientID ∉ (broadcastLoop documentID data excludeID conns).delivered) := by
  intro conns
  induction conns with
  | nil => intro _ hc; simp at hc
  | cons a rest ih =>
      intro hnodup hc
      rw [List.map_cons, List.nodup_cons] at hnodup
      obtain ⟨hanotin, hnodup2⟩ := hnodup
      rcases List.mem_cons.mp hc with rfl | hcrest
      · simp only [broadcastLoop, hdoc, if_neg hnex, if_neg hfull, if_pos rfl]
        refine ⟨List.mem_cons_self _ _, ?_, ?_⟩
        · intro d hd
          intro heq
          exact hanotin (heq ▸ broadcastLoop_conn_ids documentID data excludeID rest d hd)
        · intro hmem
          exact hanotin (broadcastLoop_delivered_ids documentID data excludeID rest _ hmem)
      · have hid : a.clientID ≠ c.clientID := by
          intro heq
          exact hanotin (heq ▸ List.mem_map_of_mem _ hcrest)
        have IH := ih hnodup2 hcrest
        match hadoc : a.docID with
        | none =>
            simp only [broadcastLoop, hadoc]
            refine ⟨IH.1, ?_, IH.2.2⟩
            intro d hd
            rcases List.mem_cons.mp hd with rfl | hd2
            · exact hid
            · exact IH.2.1 d hd2
        | some s =>
            by_cases hs : s = documentID
            · by_cases hexc : excludeID ≠ "" ∧ a.clientID = excludeID
              · simp only [broadcastLoop, hadoc, hs, if_pos hexc, if_pos rfl]
                refine ⟨IH.1, ?_, IH.2.2⟩
                intro d hd
                rcases List.mem_cons.mp hd with rfl | hd2
                · exact hid
                · exact IH.2.1 d hd2
              · by_cases hroom : a.pending.length < a.cap
                · simp only [broadcastLoop, hadoc, hs, if_neg hexc, if_pos hroom, if_pos rfl]
                  refine ⟨IH.1, ?_, ?_⟩
                  · intro d hd
                    rcases List.mem_cons.mp hd with rfl | hd2
                    · exact hid
                    · exact IH.2.1 d hd2
                  · intro hmem
                    rcases List.mem_cons.mp hmem with heq | hmem2
                    · exact hid heq.symm
                    · exact IH.2.2 hmem2
                · simp only [broadcastLoop, hadoc, hs, if_neg hexc, if_neg hroom, if_pos rfl]
                  exact ⟨List.mem_cons_of_mem _ IH.1, IH.2.1, IH.2.2⟩
            · simp only [broadcastLoop, hadoc, if_neg hs]
              refine ⟨IH.1, ?_, IH.2.2⟩
              intro d hd
              rcases List.mem_cons.mp hd with rfl | hd2
              · exact hid
              · exact IH.2.1 d hd2

/-- C3: when a bus envelope for a document decodes successfully and carries
a nonempty originating client ID, the forwarding callback enqueues the raw
payload on exactly the live connections whose document metadata equals the
topic and whose client ID differs from the originator (given their queues
have room), and never delivers it back to the originator. -/
theorem C3_self_exclusion (h : Hub) (documentID raw : String) (e : DocumentEvent)
    (hne : e.UserID ≠ "")
    (hroom : ∀ c ∈ h.connections, c.pending.length < c.cap) :
    (DocumentHandler.createNATSHandler documentID h (BusData.encoded raw e)).2
      = (h.connections.filter (fun c =>
            decide (c.docID = some documentID ∧ c.clientID ≠ e.UserID))).map
          (fun c => c.clientID) ∧
    e.UserID ∉ (DocumentHandler.createNATSHandler documentID h (BusData.encoded raw e)).2 ∧
    (DocumentHandler.createNATSHandler documentID h (BusData.encoded raw e)).1.connections
      = h.connections.map (fun c =>
          if c.docID = some documentID ∧ c.clientID ≠ e.UserID then
            { c with pending := c.pending ++ [⟨MessageType.text, "", raw⟩] } else c) := by
  have hb := broadcastLoop_excl documentID raw e.UserID hne h.connections hroom
  have hdeliv : (DocumentHandler.createNATSHandler documentID h (BusData.encoded raw e)).2
      = (h.connections.filter (fun c =>
            decide (c.docID = some documentID ∧ c.clientID ≠ e.UserID))).map
          (fun c => c.clientID) := by
    simp [DocumentHandler.createNATSHandler, decodeDocumentEvent, Hub.BroadcastToDocument,
      BusData.raw, hb]
  refine ⟨hdeliv, ?_, ?_⟩
  · rw [hdeliv]
    intro hmem
    rcases List.mem_map.mp hmem with ⟨c, hcf, hcid⟩
    rcases List.mem_filter.mp hcf with ⟨-, hcond⟩
    rw [decide_eq_true_eq] at hcond
    exact hcond.2 hcid
  · simp [DocumentHandler.createNATSHandler, decodeDocumentEvent, Hub.BroadcastToDocument,
      BusData.raw, hb]

/-- Witness for C3: senders "A" and "B" on "doc1", "Z" elsewhere; the
envelope originates from "A". -/
theorem C3_self_exclusion_witness :
    ((⟨"A", "doc1", ⟨"insert", 5, "x"⟩, 0⟩ : DocumentEvent).UserID ≠ "") ∧
    (∀ c ∈ (Hub.mk [⟨"A", 1, some "doc1", [], 256⟩, ⟨"B", 2, some "doc1", [], 256⟩,
        ⟨"Z", 3, some "other", [], 256⟩] []).connections, c.pending.length < c.cap) ∧
    ((DocumentHandler.createNATSHandler "doc1"
        (Hub.mk [⟨"A", 1, some "doc1", [], 256⟩, ⟨"B", 2, some "doc1", [], 256⟩,
          ⟨"Z", 3, some "other", [], 256⟩] [])
        (BusData.encoded "r" ⟨"A", "doc1", ⟨"insert", 5, "x"⟩, 0⟩)).2
      = ((Hub.mk [⟨"A", 1, some "doc1", [], 256⟩, ⟨"B", 2, some "doc1", [], 256⟩,
          ⟨"Z", 3, some "other", [], 256⟩] []).connections.filter (fun c =>
            decide (c.docID = some "doc1" ∧
              c.clientID ≠ (⟨"A", "doc1", ⟨"insert", 5, "x"⟩, 0⟩ : DocumentEvent).UserID))).map
          (fun c => c.clientID) ∧
    (⟨"A", "doc1", ⟨"insert", 5, "x"⟩, 0⟩ : DocumentEvent).UserID ∉
      (DocumentHandler.createNATSHandler "doc1"
        (Hub.mk [⟨"A", 1, some "doc1", [], 256⟩, ⟨"B", 2, some "doc1", [], 256⟩,
          ⟨"Z", 3, some "other", [], 256⟩] [])
        (BusData.encoded "r" ⟨"A", "doc1", ⟨"insert", 5, "x"⟩, 0⟩)).2 ∧
    (DocumentHandler.createNATSHandler "doc1"
        (Hub.mk [⟨"A", 1, some "doc1", [], 256⟩, ⟨"B", 2, some "doc1", [], 256⟩,
          ⟨"Z", 3, some "other", [], 256⟩] [])
        (BusData.encoded "r" ⟨"A", "doc1", ⟨"insert", 5, "x"⟩, 0⟩)).1.connections
      = (Hub.mk [⟨"A", 1, some "doc1", [], 256⟩, ⟨"B", 2, some "doc1", [], 256⟩,
          ⟨"Z", 3, some "other", [], 256⟩] []).connections.map (fun c =>
          if c.docID = some "doc1" ∧
              c.clientID ≠ (⟨"A", "doc1", ⟨"insert", 5, "x"⟩, 0⟩ : DocumentEvent).UserID then
            { c with pending := c.pending ++ [⟨MessageType.text, "", "r"⟩] } else c)) :=
  ⟨by decide, by decide,
    C3_self_exclusion
      (Hub.mk [⟨"A", 1, some "doc1", [], 256⟩, ⟨"B", 2, some "doc1", [], 256⟩,
        ⟨"Z", 3, some "other", [], 256⟩] [])
      "doc1" "r" ⟨"A", "doc1", ⟨"insert", 5, "x"⟩, 0⟩ (by decide) (by decide)⟩

/-- C8: when a bus envelope for a document fails to decode, the forwarding
callback does not drop the message: the raw payload is enqueued, with no
sender exclusion, on every live connection whose document metadata equals
the topic (given their queues have room), and the handler performs no
unsubscribe — the forwarding path stays alive. -/
theorem C8_decode_fail_open (h : Hub) (documentID raw : String)
    (hroom : ∀ c ∈ h.connections, c.pending.length < c.cap) :
    (DocumentHandler.createNATSHandler documentID h (BusData.malformed raw)).2
      = (h.connections.filter (fun c => decide (c.docID = some documentID))).map
          (fun c => c.clientID) ∧
    (∀ c ∈ h.connections, c.docID = some documentID →
      c.clientID ∈ (DocumentHandler.createNATSHandler documentID h (BusData.malformed raw)).2) ∧
    (DocumentHandler.createNATSHandler documentID h (BusData.malformed raw)).1.connections
      = h.connections.map (fun c =>
          if c.docID = some documentID then
            { c with pending := c.pending ++ [⟨MessageType.text, "", raw⟩] } else c) := by
  have hb := broadcastLoop_noexcl documentID raw h.connections hroom
  have hdeliv : (DocumentHandler.createNATSHandler documentID h (BusData.malformed raw)).2
      = (h.connections.filter (fun c => decide (c.docID = some documentID))).map
          (fun c => c.clientID) := by
    simp [DocumentHandler.createNATSHandler, decodeDocumentEvent, Hub.BroadcastToDocument,
      BusData.raw, hb]
  refine ⟨hdeliv, ?_, ?_⟩
  · intro c hc hcdoc
    rw [hdeliv]
    exact List.mem_map_of_mem _ (List.mem_filter.mpr ⟨hc, by simp [hcdoc]⟩)
  · simp [DocumentHandler.createNATSHandler, decodeDocumentEvent, Hub.BroadcastToDocument,
      BusData.raw, hb]

/-- Witness for C8: connections "A" and "B" on "doc1"; the malformed
payload reaches both — including "A", whose ID an intact envelope would
have excluded. -/
theorem C8_decode_fail_open_witness :
    (∀ c ∈ (Hub.mk [⟨"A", 1, some "doc1", [], 256⟩,
        ⟨"B", 2, some "doc1", [], 256⟩] []).connections, c.pending.length < c.cap) ∧
    ((DocumentHandler.createNATSHandler "doc1"
        (Hub.mk [⟨"A", 1, some "doc1", [], 256⟩, ⟨"B", 2, some "doc1", [], 256⟩] [])
        (BusData.malformed "oops")).2
      = ((Hub.mk [⟨"A", 1, some "doc1", [], 256⟩, ⟨"B", 2, some "doc1", [], 256⟩]
          []).connections.filter (fun c => decide (c.docID = some "doc1"))).map
          (fun c => c.clientID) ∧
    (∀ c ∈ (Hub.mk [⟨"A", 1, some "doc1", [], 256⟩,
        ⟨"B", 2, some "doc1", [], 256⟩] []).connections, c.docID = some "doc1" →
      c.clientID ∈ (DocumentHandler.createNATSHandler "doc1"
        (Hub.mk [⟨"A", 1, some "doc1", [], 256⟩, ⟨"B", 2, some "doc1", [], 256⟩] [])
        (BusData.malformed "oops")).2) ∧
    (DocumentHandler.createNATSHandler "doc1"
        (Hub.mk [⟨"A", 1, some "doc1", [], 256⟩, ⟨"B", 2, some "doc1", [], 256⟩] [])
        (BusData.malformed "oops")).1.connections
      = (Hub.mk [⟨"A", 1, some "doc1", [], 256⟩, ⟨"B", 2, some "doc1", [], 256⟩]
          []).connections.map (fun c =>
          if c.docID = some "doc1" then
            { c with pending := c.pending ++ [⟨MessageType.text, "", "oops"⟩] } else c)) :=
  ⟨by decide,
    C8_decode_fail_open
      (Hub.mk [⟨"A", 1, some "doc1", [], 256⟩, ⟨"B", 2, some "doc1", [], 256⟩] [])
      "doc1" "oops" (by decide)⟩

/-- C4: during a broadcast, a selected connection (document matches, not
excluded) whose outbound queue is full is evicted in that same pass: its
send channel is closed, it disappears from the hub's live set, the total
broadcast function returns normally with no error to the broadcaster, the
message is not delivered to it, and no later broadcast on the resulting hub
delivers anything to its client ID. -/
theorem C4_backpressure_eviction (h : Hub) (documentID data : String)
    (excl : List String) (c : Connection)
    (hnodup : (h.connections.map (fun d => d.clientID)).Nodup)
    (hc : c ∈ h.connections) (hdoc : c.docID = some documentID)
    (hnex : ¬ (excl.headD "" ≠ "" ∧ c.clientID = excl.headD ""))
    (hfull : ¬ (c.pending.length < c.cap)) :
    c.queueId ∈ (h.BroadcastToDocument documentID data excl).1.closed ∧
    (∀ d ∈ (h.BroadcastToDocument documentID data excl).1.connections,
        d.clientID ≠ c.clientID) ∧
    c.clientID ∉ (h.BroadcastToDocument documentID data excl).2 ∧
    (∀ documentID2 data2 excl2, c.clientID ∉
        ((h.BroadcastToDocument documentID data excl).1.BroadcastToDocument
          documentID2 data2 excl2).2) := by
  have hcore := broadcastLoop_evicts documentID data (excl.headD "") c hdoc hnex hfull
      h.connections hnodup hc
  refine ⟨?_, ?_, ?_, ?_⟩
  · simp only [Hub.BroadcastToDocument, List.mem_append]
    exact Or.inr hcore.1
  · intro d hd
    exact hcore.2.1 d (by simpa [Hub.BroadcastToDocument] using hd)
  · simpa [Hub.BroadcastToDocument] using hcore.2.2
  · intro d2 dat2 ex2 hmem
    simp only [Hub.BroadcastToDocument] at hmem
    have hin := broadcastLoop_delivered_ids d2 dat2 (ex2.headD "")
        (broadcastLoop documentID data (excl.headD "") h.connections).connections _ hmem
    rcases List.mem_map.mp hin with ⟨d, hd, hdid⟩
    exact hcore.2.1 d hd hdid

/-- Witness for C4: connection "b" on "doc1" with a capacity-1 queue
already holding one message is evicted by a broadcast on "doc1". -/
theorem C4_backpressure_eviction_witness :
    (((Hub.mk [⟨"b", 7, some "doc1", [⟨MessageType.text, "", "m"⟩], 1⟩]
        []).connections.map (fun d => d.clientID)).Nodup) ∧
    ((⟨"b", 7, some "doc1", [⟨MessageType.text, "", "m"⟩], 1⟩ : Connection) ∈
      (Hub.mk [⟨"b", 7, some "doc1", [⟨MessageType.text, "", "m"⟩], 1⟩] []).connections) ∧
    ((⟨"b", 7, some "doc1", [⟨MessageType.text, "", "m"⟩], 1⟩ : Connection).docID
      = some "doc1") ∧
    (¬ ((List.headD ([] : List String) "" ≠ "") ∧
      (⟨"b", 7, some "doc1", [⟨MessageType.text, "", "m"⟩], 1⟩ : Connection).clientID
        = List.headD ([] : List String) "")) ∧
    (¬ ((⟨"b", 7, some "doc1", [⟨MessageType.text, "", "m"⟩], 1⟩ :
        Connection).pending.length <
      (⟨"b", 7, some "doc1", [⟨MessageType.text, "", "m"⟩], 1⟩ : Connection).cap)) ∧
    ((⟨"b", 7, some "doc1", [⟨MessageType.text, "", "m"⟩], 1⟩ : Connection).queueId ∈
      ((Hub.mk [⟨"b", 7, some "doc1", [⟨MessageType.text, "", "m"⟩], 1⟩]
        []).BroadcastToDocument "doc1" "x" []).1.closed ∧
    (∀ d ∈ ((Hub.mk [⟨"b", 7, some "doc1", [⟨MessageType.text, "", "m"⟩], 1⟩]
        []).BroadcastToDocument "doc1" "x" []).1.connections,
        d.clientID ≠ (⟨"b", 7, some "doc1", [⟨MessageType.text, "", "m"⟩], 1⟩ :
          Connection).clientID) ∧
    (⟨"b", 7, some "doc1", [⟨MessageType.text, "", "m"⟩], 1⟩ : Connection).clientID ∉
      ((Hub.mk [⟨"b", 7, some "doc1", [⟨MessageType.text, "", "m"⟩], 1⟩]
        []).BroadcastToDocument "doc1" "x" []).2 ∧
    (∀ documentID2 data2 excl2,
      (⟨"b", 7, some "doc1", [⟨MessageType.text, "", "m"⟩], 1⟩ : Connection).clientID ∉
        (((Hub.mk [⟨"b", 7, some "doc1", [⟨MessageType.text, "", "m"⟩], 1⟩]
          []).BroadcastToDocument "doc1" "x" []).1.BroadcastToDocument
            documentID2 data2 excl2).2)) :=
  ⟨by decide, by decide, by decide, by decide, by decide,
    C4_backpressure_eviction
      (Hub.mk [⟨"b", 7, some "doc1", [⟨MessageType.text, "", "m"⟩], 1⟩] [])
      "doc1" "x" [] ⟨"b", 7, some "doc1", [⟨MessageType.text, "", "m"⟩], 1⟩
      (by decide) (by decide) (by decide) (by decide) (by decide)⟩
